import Mathlib

/-!
Verification of the Z.AI signature module (`signature.py`): a shallow
embedding of `decode_jwt_payload`, `zs` and `generate_zs_signature`,
together with executable models of the library routines they call
(SHA-256, HMAC, UTF-8, URL-safe base64, JSON parsing).
Bytes are natural numbers below 256; machine words are naturals reduced
modulo 2^32 explicitly.
-/

namespace ZsSig

/-- Byte strings are lists of naturals below 256. -/
abbrev Bytes := List Nat

/-- UTF-8 encoding of one character, as CPython's str.encode produces. -/
def utf8Char (c : Char) : Bytes :=
  let n := c.toNat
  if n < 128 then [n]
  else if n < 2048 then [192 + n / 64, 128 + n % 64]
  else if n < 65536 then [224 + n / 4096, 128 + n / 64 % 64, 128 + n % 64]
  else [240 + n / 262144, 128 + n / 4096 % 64, 128 + n / 64 % 64, 128 + n % 64]

/-- UTF-8 encoding of a string (Python `s.encode("utf-8")`). -/
def utf8 (s : String) : Bytes := s.data.flatMap utf8Char

/-- Modulus for 32-bit words. -/
def M32 : Nat := 4294967296

/-- Right rotation of a 32-bit word. -/
def rotr (n w : Nat) : Nat := ((w >>> n) ||| (w <<< (32 - n))) % M32

/-- SHA-256 choice function. -/
def ch (x y z : Nat) : Nat := (x &&& y) ^^^ ((x ^^^ 4294967295) &&& z)

/-- SHA-256 majority function. -/
def maj (x y z : Nat) : Nat := (x &&& y) ^^^ (x &&& z) ^^^ (y &&& z)

/-- SHA-256 big sigma 0. -/
def bigS0 (x : Nat) : Nat := rotr 2 x ^^^ rotr 13 x ^^^ rotr 22 x

/-- SHA-256 big sigma 1. -/
def bigS1 (x : Nat) : Nat := rotr 6 x ^^^ rotr 11 x ^^^ rotr 25 x

/-- SHA-256 small sigma 0. -/
def smallS0 (x : Nat) : Nat := rotr 7 x ^^^ rotr 18 x ^^^ (x >>> 3)

/-- SHA-256 small sigma 1. -/
def smallS1 (x : Nat) : Nat := rotr 17 x ^^^ rotr 19 x ^^^ (x >>> 10)

/-- The 64 SHA-256 round constants (FIPS 180-4, written in decimal). -/
def K : List Nat :=
  [1116352408, 1899447441, 3049323471, 3921009573, 961987163, 1508970993, 2453635748,
   2870763221, 3624381080, 310598401, 607225278, 1426881987, 1925078388, 2162078206,
   2614888103, 3248222580, 3835390401, 4022224774, 264347078, 604807628, 770255983,
   1249150122, 1555081692, 1996064986, 2554220882, 2821834349, 2952996808, 3210313671,
   3336571891, 3584528711, 113926993, 338241895, 666307205, 773529912, 1294757372,
   1396182291, 1695183700, 1986661051, 2177026350, 2456956037, 2730485921, 2820302411,
   3259730800, 3345764771, 3516065817, 3600352804, 4094571909, 275423344, 430227734,
   506948616, 659060556, 883997877, 958139571, 1322822218, 1537002063, 1747873779,
   1955562222, 2024104815, 2227730452, 2361852424, 2428436474, 2756734187, 3204031479,
   3329325298]

/-- SHA-256 working state: eight 32-bit words. -/
structure Hash8 where
  a : Nat
  b : Nat
  c : Nat
  d : Nat
  e : Nat
  f : Nat
  g : Nat
  h : Nat

/-- Initial SHA-256 state (FIPS 180-4, written in decimal). -/
def H0 : Hash8 :=
  ⟨1779033703, 3144134277, 1013904242, 2773480762,
   1359893119, 2600822924, 528734635, 1541459225⟩

/-- Big-endian 32-bit words from a byte list (in groups of four). -/
def bytesToWords : Bytes → List Nat
  | b0 :: b1 :: b2 :: b3 :: rest =>
    (b0 * 16777216 + b1 * 65536 + b2 * 256 + b3) :: bytesToWords rest
  | _ => []

/-- Extend a 16-word block to the 64-word message schedule. -/
def extendW (w : Array Nat) : Array Nat :=
  (List.range 48).foldl (fun w i =>
    w.push ((smallS1 (w.getD (i + 14) 0) + w.getD (i + 9) 0 +
             smallS0 (w.getD (i + 1) 0) + w.getD i 0) % M32)) w

/-- One SHA-256 compression round with a (constant, schedule word) pair. -/
def round1 (s : Hash8) (kw : Nat × Nat) : Hash8 :=
  let t1 := (s.h + bigS1 s.e + ch s.e s.f s.g + kw.1 + kw.2) % M32
  let t2 := (bigS0 s.a + maj s.a s.b s.c) % M32
  ⟨(t1 + t2) % M32, s.a, s.b, s.c, (s.d + t1) % M32, s.e, s.f, s.g⟩

/-- SHA-256 compression of one 64-byte block. -/
def compress (s : Hash8) (block : Bytes) : Hash8 :=
  let w := extendW (bytesToWords block).toArray
  let t := (K.zip w.toList).foldl round1 s
  ⟨(s.a + t.a) % M32, (s.b + t.b) % M32, (s.c + t.c) % M32, (s.d + t.d) % M32,
   (s.e + t.e) % M32, (s.f + t.f) % M32, (s.g + t.g) % M32, (s.h + t.h) % M32⟩

/-- Eight big-endian bytes of the 64-bit message length. -/
def lenBytes8 (n : Nat) : Bytes :=
  [n / 72057594037927936 % 256, n / 281474976710656 % 256, n / 1099511627776 % 256,
   n / 4294967296 % 256, n / 16777216 % 256, n / 65536 % 256, n / 256 % 256, n % 256]

/-- SHA-256 padding: a 0x80 byte, zeros to 56 mod 64, then the bit length. -/
def padMsg (m : Bytes) : Bytes :=
  m ++ [128] ++ List.replicate ((119 - m.length % 64) % 64) 0 ++ lenBytes8 (8 * m.length)

/-- Split a byte list into 64-byte chunks (fueled for structural recursion). -/
def chunks64 : Nat → Bytes → List Bytes
  | 0, _ => []
  | _, [] => []
  | fuel + 1, l => l.take 64 :: chunks64 fuel (l.drop 64)

/-- Big-endian serialization of one 32-bit word. -/
def w2b (w : Nat) : Bytes :=
  [w / 16777216 % 256, w / 65536 % 256, w / 256 % 256, w % 256]

/-- Serialize the final state to the 32-byte digest. -/
def stateBytes (s : Hash8) : Bytes :=
  w2b s.a ++ w2b s.b ++ w2b s.c ++ w2b s.d ++ w2b s.e ++ w2b s.f ++ w2b s.g ++ w2b s.h

/-- SHA-256 of a byte string (hashlib.sha256 digest). -/
def sha256 (m : Bytes) : Bytes :=
  let p := padMsg m
  stateBytes ((chunks64 p.length p).foldl compress H0)

/-- HMAC-SHA256 (hmac.new with hashlib.sha256, block size 64). -/
def hmacSha256 (key msg : Bytes) : Bytes :=
  let k0 := if 64 < key.length then sha256 key else key
  let k := k0 ++ List.replicate (64 - k0.length) 0
  sha256 ((k.map (fun b => b ^^^ 92)) ++ sha256 ((k.map (fun b => b ^^^ 54)) ++ msg))

/-- The sixteen lowercase hexadecimal digit characters. -/
def hexDigitChars : List Char := "0123456789abcdef".data

/-- Lowercase hexadecimal digit for a value below 16. -/
def hexDigit (n : Nat) : Char := hexDigitChars.getD n '0'

/-- Two lowercase hex characters per byte. -/
def hexChars (bs : Bytes) : List Char :=
  bs.flatMap (fun b => [hexDigit (b / 16), hexDigit (b % 16)])

/-- Lowercase hexadecimal digest string of a byte list (hexdigest). -/
def hexdigest (bs : Bytes) : String := String.mk (hexChars bs)

/-- hmac.new(key, msg, hashlib.sha256).hexdigest(). -/
def hmacHex (key msg : Bytes) : String := hexdigest (hmacSha256 key msg)

/-- Result dictionary of the signer: signature string and echoed timestamp. -/
structure SigResult where
  signature : String
  timestamp : Int
deriving DecidableEq

/-- The intermediate derived key `o` of `zs` (signature.py lines 52-55):
HMAC-SHA256 with key the UTF-8 bytes of the literal "junjie" and message
the decimal string of `timestamp // (5 * 60 * 1000)`, as lowercase hex. -/
def derivedKeyO (timestamp : Int) : String :=
  let n := timestamp.fdiv (5 * 60 * 1000)
  hmacHex (utf8 ("junjie")) (utf8 (toString n))

/-- Core signer `zs` (signature.py lines 38-60). -/
def zs (e t : String) (timestamp : Int) : SigResult :=
  let r := toString timestamp
  let i := e ++ "|" ++ t ++ "|" ++ r
  let o := derivedKeyO timestamp
  let signature := hmacHex (utf8 o) (utf8 i)
  ⟨signature, timestamp⟩

/-- Padding step of decode_jwt_payload (signature.py lines 30-32):
`padding = 4 - len(payload) % 4`, appended as that many `=` only when it
differs from 4. -/
def padPayload (payload : String) : String :=
  let padding := 4 - payload.length % 4
  if padding ≠ 4 then payload ++ String.mk (List.replicate padding '=') else payload

/-- Value of a standard base64-alphabet character. -/
def b64Val (c : Char) : Option Nat :=
  if 'A' ≤ c ∧ c ≤ 'Z' then some (c.toNat - 65)
  else if 'a' ≤ c ∧ c ≤ 'z' then some (c.toNat - 97 + 26)
  else if '0' ≤ c ∧ c ≤ '9' then some (c.toNat - 48 + 52)
  else if c = '+' then some 62
  else if c = '/' then some 63
  else none

/-- State of binascii's non-strict base64 scanner: position inside the
current quad, the bits carried over from the previous data character, the
output bytes in reverse, the pads counted at quad position two or later,
and whether a completed pad quad has ended the input. -/
structure B64State where
  quadPos : Nat
  leftchar : Nat
  out : Bytes
  pads : Nat
  stop : Bool

/-- One character of CPython 3.11 binascii.a2b_base64 with
strict_mode=False: once stopped nothing changes; an equal sign is counted
only at quad position two or three and ends the input when the position
plus the pads seen reaches four, being skipped otherwise; a character
outside the alphabet is skipped; a data character resets the pad count,
advances the quad position and emits one byte at positions one, two and
three. -/
def a2b64Step (st : B64State) (c : Char) : B64State :=
  if st.stop then st
  else if c = '=' then
    if 2 ≤ st.quadPos then
      if 4 ≤ st.quadPos + st.pads + 1 then { st with pads := st.pads + 1, stop := true }
      else { st with pads := st.pads + 1 }
    else st
  else
    match b64Val c with
    | none => st
    | some v =>
      match st.quadPos with
      | 0 => { st with quadPos := 1, leftchar := v, pads := 0 }
      | 1 => ⟨2, v % 16, (st.leftchar * 4 + v / 16) :: st.out, 0, false⟩
      | 2 => ⟨3, v % 4, (st.leftchar * 16 + v / 4) :: st.out, 0, false⟩
      | _ => ⟨0, 0, (st.leftchar * 64 + v) :: st.out, 0, false⟩

/-- CPython binascii.a2b_base64 with strict_mode=False: scan the whole
input, then fail unless a completed pad quad stopped the scan or the
final quad position is zero. -/
def a2bBase64 (cs : List Char) : Option Bytes :=
  let st := cs.foldl a2b64Step ⟨0, 0, [], 0, false⟩
  if st.stop ∨ st.quadPos = 0 then some st.out.reverse else none

/-- Python base64.urlsafe_b64decode on a str argument: the input must be
ASCII, minus and underscore translate to plus and slash, then binascii's
non-strict base64 scan runs. -/
def urlsafe_b64decode (s : String) : Option Bytes :=
  if s.data.all (fun c => c.toNat < 128) then
    a2bBase64 (s.data.map (fun c => if c = '-' then '+' else if c = '_' then '/' else c))
  else none

/-- Python string contents are modelled as lists of code points, lone
surrogates included, because json.loads decodes payload bytes with the
surrogatepass error handler. -/
abbrev PyStr := List Nat

/-- Code points of a Lean string, for writing Python string constants. -/
def pyOfString (s : String) : PyStr := s.data.map Char.toNat

/-- The encodings json.detect_encoding can select. -/
inductive PyEnc where
  | u8 : PyEnc
  | u16le : PyEnc
  | u16be : PyEnc
  | u32le : PyEnc
  | u32be : PyEnc

/-- json.detect_encoding: pick the encoding from a BOM or from leading
zero bytes, stripping the BOM exactly when the codec Python selects would
strip it (utf-8-sig and the BOM-driven utf-16 and utf-32 modes); without
a BOM, a zero first byte means big-endian utf-16 or utf-32, a zero second
byte little-endian, and anything else utf-8. -/
def detectEncoding (bs : Bytes) : PyEnc × Bytes :=
  match bs with
  | 0 :: 0 :: 254 :: 255 :: rest => (PyEnc.u32be, rest)
  | 255 :: 254 :: 0 :: 0 :: rest => (PyEnc.u32le, rest)
  | 254 :: 255 :: rest => (PyEnc.u16be, rest)
  | 255 :: 254 :: rest => (PyEnc.u16le, rest)
  | 239 :: 187 :: 191 :: rest => (PyEnc.u8, rest)
  | _ =>
    if 4 ≤ bs.length then
      if bs.getD 0 1 = 0 then
        (if bs.getD 1 0 ≠ 0 then PyEnc.u16be else PyEnc.u32be, bs)
      else if bs.getD 1 1 = 0 then
        (if bs.getD 2 0 ≠ 0 ∨ bs.getD 3 0 ≠ 0 then PyEnc.u16le else PyEnc.u32le, bs)
      else (PyEnc.u8, bs)
    else if bs.length = 2 then
      if bs.getD 0 1 = 0 then (PyEnc.u16be, bs)
      else if bs.getD 1 1 = 0 then (PyEnc.u16le, bs)
      else (PyEnc.u8, bs)
    else (PyEnc.u8, bs)

/-- UTF-8 decoding of bytes to code points as bytes.decode("utf-8",
"surrogatepass") does: strict UTF-8 (no overlong forms, four-byte forms
capped at U+10FFFF) plus the three-byte encodings of the surrogate range
that surrogatepass readmits. Fueled by the byte count. -/
def utf8SpDecodeF : Nat → Bytes → Option PyStr
  | _, [] => some []
  | 0, _ :: _ => none
  | fuel + 1, b :: rest =>
    if b < 128 then do
      let cs ← utf8SpDecodeF fuel rest
      pure (b :: cs)
    else if 194 ≤ b ∧ b ≤ 223 then
      match rest with
      | b1 :: rest2 =>
        if 128 ≤ b1 ∧ b1 ≤ 191 then do
          let cs ← utf8SpDecodeF fuel rest2
          pure (((b - 192) * 64 + (b1 - 128)) :: cs)
        else none
      | _ => none
    else if 224 ≤ b ∧ b ≤ 239 then
      match rest with
      | b1 :: b2 :: rest2 =>
        let lo1 := if b = 224 then 160 else 128
        if lo1 ≤ b1 ∧ b1 ≤ 191 ∧ 128 ≤ b2 ∧ b2 ≤ 191 then do
          let cs ← utf8SpDecodeF fuel rest2
          pure (((b - 224) * 4096 + (b1 - 128) * 64 + (b2 - 128)) :: cs)
        else none
      | _ => none
    else if 240 ≤ b ∧ b ≤ 244 then
      match rest with
      | b1 :: b2 :: b3 :: rest2 =>
        let lo1 := if b = 240 then 144 else 128
        let hi1 := if b = 244 then 143 else 191
        if lo1 ≤ b1 ∧ b1 ≤ hi1 ∧ 128 ≤ b2 ∧ b2 ≤ 191 ∧ 128 ≤ b3 ∧ b3 ≤ 191 then do
          let cs ← utf8SpDecodeF fuel rest2
          pure (((b - 240) * 262144 + (b1 - 128) * 4096 + (b2 - 128) * 64 + (b3 - 128)) :: cs)
        else none
      | _ => none
    else none

/-- Group bytes into 16-bit units of the given endianness; an odd
trailing byte is a truncation error surrogatepass does not rescue. -/
def utf16Units (le : Bool) : Bytes → Option (List Nat)
  | [] => some []
  | [_] => none
  | b0 :: b1 :: rest => do
    let us ← utf16Units le rest
    pure ((if le then b1 * 256 + b0 else b0 * 256 + b1) :: us)

/-- UTF-16 unit sequence to code points with surrogatepass, fueled by the
unit count: a high surrogate followed by a low surrogate combines, any
other surrogate unit passes through as a bare code point. -/
def combineUtf16F : Nat → List Nat → List Nat
  | _, [] => []
  | 0, us => us
  | fuel + 1, u :: rest =>
    if 55296 ≤ u ∧ u ≤ 56319 then
      match rest with
      | v :: rest2 =>
        if 56320 ≤ v ∧ v ≤ 57343 then
          (65536 + (u - 55296) * 1024 + (v - 56320)) :: combineUtf16F fuel rest2
        else u :: combineUtf16F fuel rest
      | [] => [u]
    else u :: combineUtf16F fuel rest

/-- UTF-16 units to code points with surrogatepass. -/
def combineUtf16 (us : List Nat) : List Nat := combineUtf16F us.length us

/-- UTF-32 decoding with surrogatepass: four-byte units of the given
endianness, values above U+10FFFF and truncated units failing, surrogate
values passing through. -/
def utf32Decode (le : Bool) : Bytes → Option (List Nat)
  | [] => some []
  | b0 :: b1 :: b2 :: b3 :: rest => do
    let u := if le then ((b3 * 256 + b2) * 256 + b1) * 256 + b0
             else ((b0 * 256 + b1) * 256 + b2) * 256 + b3
    if u ≤ 1114111 then do
      let us ← utf32Decode le rest
      pure (u :: us)
    else none
  | _ => none

/-- The bytes-to-str step of json.loads on a bytes argument:
s.decode(detect_encoding(s), "surrogatepass"). -/
def pyDecodeBytes (bs : Bytes) : Option PyStr :=
  match detectEncoding bs with
  | (PyEnc.u8, rest) => utf8SpDecodeF rest.length rest
  | (PyEnc.u16le, rest) => (utf16Units true rest).map combineUtf16
  | (PyEnc.u16be, rest) => (utf16Units false rest).map combineUtf16
  | (PyEnc.u32le, rest) => utf32Decode true rest
  | (PyEnc.u32be, rest) => utf32Decode false rest

/-- JSON values as json.loads produces them: null, booleans, ints, floats
(held as mantissa times a power of ten), the NaN and Infinity constants,
strings, arrays and objects (key-value lists in textual order, duplicates
kept, dict lookup taking the last). String contents are Python strings,
so code points that may include lone surrogates. -/
inductive JVal where
  | null : JVal
  | bool (b : Bool) : JVal
  | int (n : Int) : JVal
  | float (m : Int) (e : Int) : JVal
  | nonfinite (s : String) : JVal
  | str (s : PyStr) : JVal
  | arr (xs : List JVal) : JVal
  | obj (kvs : List (PyStr × JVal)) : JVal

/-- JSON whitespace code points: space, tab, newline, carriage return. -/
def jsonWs (c : Nat) : Bool := c == 32 || c == 9 || c == 10 || c == 13

/-- Drop leading JSON whitespace. -/
def skipWs : PyStr → PyStr
  | [] => []
  | c :: cs => if jsonWs c then skipWs cs else c :: cs

/-- Value of a hexadecimal digit code point. -/
def hexVal (c : Nat) : Option Nat :=
  if 48 ≤ c ∧ c ≤ 57 then some (c - 48)
  else if 97 ≤ c ∧ c ≤ 102 then some (c - 87)
  else if 65 ≤ c ∧ c ≤ 70 then some (c - 55)
  else none

/-- JSON string body parser (after the opening quote, code 34), with an
accumulator of decoded code points in reverse; handles the escape
sequences json.loads accepts exactly as CPython's scanner does: a high
surrogate escape followed by a valid low surrogate escape combines, a
high surrogate escape followed by a well-formed non-low escape or by
anything that is not a full escape stays as the bare code point (the
following escape being processed on its own), and any other lone
surrogate escape stays as the bare code point. -/
def parseStrF : Nat → PyStr → PyStr → Option (PyStr × PyStr)
  | 0, _, _ => none
  | fuel + 1, acc, cs =>
    match cs with
    | [] => none
    | 34 :: rest => some (acc.reverse, rest)
    | 92 :: esc =>
      match esc with
      | 117 :: h1 :: h2 :: h3 :: h4 :: rest => do
        let d1 ← hexVal h1
        let d2 ← hexVal h2
        let d3 ← hexVal h3
        let d4 ← hexVal h4
        let u := d1 * 4096 + d2 * 256 + d3 * 16 + d4
        if 55296 ≤ u ∧ u ≤ 56319 then
          match rest with
          | 92 :: 117 :: g1 :: g2 :: g3 :: g4 :: rest2 => do
            let e1 ← hexVal g1
            let e2 ← hexVal g2
            let e3 ← hexVal g3
            let e4 ← hexVal g4
            let v := e1 * 4096 + e2 * 256 + e3 * 16 + e4
            if 56320 ≤ v ∧ v ≤ 57343 then
              parseStrF fuel ((65536 + (u - 55296) * 1024 + (v - 56320)) :: acc) rest2
            else parseStrF fuel (u :: acc) rest
          | _ => parseStrF fuel (u :: acc) rest
        else parseStrF fuel (u :: acc) rest
      | c :: rest =>
        if c = 34 then parseStrF fuel (34 :: acc) rest
        else if c = 92 then parseStrF fuel (92 :: acc) rest
        else if c = 47 then parseStrF fuel (47 :: acc) rest
        else if c = 98 then parseStrF fuel (8 :: acc) rest
        else if c = 102 then parseStrF fuel (12 :: acc) rest
        else if c = 110 then parseStrF fuel (10 :: acc) rest
        else if c = 114 then parseStrF fuel (13 :: acc) rest
        else if c = 116 then parseStrF fuel (9 :: acc) rest
        else none
      | [] => none
    | c :: rest =>
      if c < 32 then none
      else parseStrF fuel (c :: acc) rest

/-- Decimal digit test on a code point. -/
def isDigitC (c : Nat) : Bool := decide (48 ≤ c ∧ c ≤ 57)

/-- Numeric value of a decimal digit code point list. -/
def digitsVal (ds : PyStr) : Nat :=
  ds.foldl (fun a c => a * 10 + (c - 48)) 0

/-- JSON number parser, following the RFC 8259 grammar json.loads uses:
optional minus, integer part with no leading zero, optional fraction and
exponent; a plain integer literal yields an int, anything else a float
with value mantissa times ten to the exponent. -/
def parseNumber (cs : PyStr) : Option (JVal × PyStr) :=
  let sgn := match cs with
    | 45 :: rest => (true, rest)
    | _ => (false, cs)
  let neg := sgn.1
  let ipSplit := sgn.2.span isDigitC
  let ip := ipSplit.1
  let cs2 := ipSplit.2
  if ip = [] then none
  else if 1 < ip.length ∧ ip.headD 48 = 48 then none
  else
    let frSplit : Option PyStr × PyStr := match cs2 with
      | 46 :: rest =>
        let s := rest.span isDigitC
        (some s.1, s.2)
      | _ => (none, cs2)
    match frSplit with
    | (some [], _) => none
    | (fp, cs3) =>
      let exSplit : Option (Bool × PyStr) × PyStr := match cs3 with
        | c :: rest =>
          if c = 101 ∨ c = 69 then
            match rest with
            | 43 :: r2 =>
              let s := r2.span isDigitC
              (some (false, s.1), s.2)
            | 45 :: r2 =>
              let s := r2.span isDigitC
              (some (true, s.1), s.2)
            | _ =>
              let s := rest.span isDigitC
              (some (false, s.1), s.2)
          else (none, cs3)
        | [] => (none, cs3)
      match exSplit with
      | (some (_, []), _) => none
      | (ep, cs4) =>
        let sign : Int := if neg then -1 else 1
        match fp, ep with
        | none, none => some (JVal.int (sign * (digitsVal ip : Int)), cs2)
        | _, _ =>
          let fr := fp.getD []
          let m : Int := sign * ((digitsVal (ip ++ fr) : Nat) : Int)
          let ex : Int :=
            (match ep with
             | some (eneg, ds) => if eneg then -(digitsVal ds : Int) else (digitsVal ds : Int)
             | none => 0) - (fr.length : Int)
          some (JVal.float m ex, cs4)

/-- Mode tag for the fueled recursive-descent JSON parser. -/
inductive PTag where
  | val : PTag
  | arrItems : PTag
  | objItems : PTag

/-- Output of one parser mode. -/
inductive POut where
  | v (x : JVal) : POut
  | elems (xs : List JVal) : POut
  | mems (kvs : List (PyStr × JVal)) : POut

/-- Recursive-descent JSON parser over code points, structurally recursive
on fuel; mode `val` parses a value after optional whitespace; `arrItems`
parses the comma-separated elements up to the closing bracket; `objItems`
parses members up to the closing brace. The structural code points are 123
and 125 for braces, 91 and 93 for brackets, 34 for the quote, 44 the
comma, 58 the colon, 45 the minus sign. -/
def parseF : Nat → PTag → PyStr → Option (POut × PyStr)
  | 0, _, _ => none
  | fuel + 1, PTag.val, cs =>
    match skipWs cs with
    | [] => none
    | 123 :: rest =>
      (match skipWs rest with
       | 125 :: r2 => some (POut.v (JVal.obj []), r2)
       | rest1 => do
         let pr ← parseF fuel PTag.objItems rest1
         match pr with
         | (POut.mems kvs, r2) => some (POut.v (JVal.obj kvs), r2)
         | _ => none)
    | 91 :: rest =>
      (match skipWs rest with
       | 93 :: r2 => some (POut.v (JVal.arr []), r2)
       | rest1 => do
         let pr ← parseF fuel PTag.arrItems rest1
         match pr with
         | (POut.elems xs, r2) => some (POut.v (JVal.arr xs), r2)
         | _ => none)
    | 34 :: rest => do
      let sr ← parseStrF (rest.length + 1) [] rest
      some (POut.v (JVal.str sr.1), sr.2)
    | 116 :: 114 :: 117 :: 101 :: rest => some (POut.v (JVal.bool true), rest)
    | 102 :: 97 :: 108 :: 115 :: 101 :: rest => some (POut.v (JVal.bool false), rest)
    | 110 :: 117 :: 108 :: 108 :: rest => some (POut.v JVal.null, rest)
    | 78 :: 97 :: 78 :: rest => some (POut.v (JVal.nonfinite ("nan")), rest)
    | 73 :: 110 :: 102 :: 105 :: 110 :: 105 :: 116 :: 121 :: rest =>
      some (POut.v (JVal.nonfinite ("inf")), rest)
    | 45 :: 73 :: 110 :: 102 :: 105 :: 110 :: 105 :: 116 :: 121 :: rest =>
      some (POut.v (JVal.nonfinite ("-inf")), rest)
    | other => do
      let vr ← parseNumber other
      some (POut.v vr.1, vr.2)
  | fuel + 1, PTag.arrItems, cs => do
    let pr ← parseF fuel PTag.val cs
    match pr with
    | (POut.v x, r2) =>
      (match skipWs r2 with
       | 44 :: r4 => do
         let pr2 ← parseF fuel PTag.arrItems r4
         match pr2 with
         | (POut.elems xs, r5) => some (POut.elems (x :: xs), r5)
         | _ => none
       | 93 :: r4 => some (POut.elems [x], r4)
       | _ => none)
    | _ => none
  | fuel + 1, PTag.objItems, cs =>
    match skipWs cs with
    | 34 :: rest => do
      let kr ← parseStrF (rest.length + 1) [] rest
      match skipWs kr.2 with
      | 58 :: r4 => do
        let pr ← parseF fuel PTag.val r4
        match pr with
        | (POut.v x, r5) =>
          (match skipWs r5 with
           | 44 :: r7 => do
             let pr2 ← parseF fuel PTag.objItems r7
             match pr2 with
             | (POut.mems kvs, r8) => some (POut.mems ((kr.1, x) :: kvs), r8)
             | _ => none
           | 125 :: r7 => some (POut.mems [(kr.1, x)], r7)
           | _ => none)
        | _ => none
      | _ => none
    | _ => none

/-- Model of json.loads on a Python string: parse one value, then require
only whitespace to remain. CPython resource limits (the recursion limit on
deeply nested documents and the integer-string digit limit) are not
modelled. -/
def jsonLoads (cs : PyStr) : Option JVal := do
  let pr ← parseF (2 * cs.length + 2) PTag.val cs
  match pr with
  | (POut.v v, rest) => if skipWs rest = [] then some v else none
  | _ => none

/-- Python str.split with a one-character separator: every occurrence
splits, empty pieces kept, the empty string giving a single empty piece. -/
def splitOnChar (sep : Char) : List Char → List (List Char)
  | [] => [[]]
  | c :: rest =>
    let r := splitOnChar sep rest
    if c = sep then [] :: r
    else (c :: r.headD []) :: r.tail

/-- decode_jwt_payload (signature.py lines 17-36): split the token on dots,
take segment 1 (an out-of-range index is a failure the caller catches),
pad, URL-safe base64 decode, then json.loads on the bytes (encoding
detection with surrogatepass, then the parse). -/
def decode_jwt_payload (token : String) : Option JVal := do
  let parts := (splitOnChar '.' token.data).map String.mk
  let payload ← parts[1]?
  let decoded ← urlsafe_b64decode (padPayload payload)
  let chars ← pyDecodeBytes decoded
  jsonLoads chars

/-- Python `payload["id"]`: defined only when the payload is an object
containing the key, duplicates resolved to the last occurrence as dict
construction does; any other shape raises and is caught by the caller. -/
def getId : JVal → Option JVal
  | JVal.obj kvs =>
    ((kvs.filter (fun kv => kv.1 == pyOfString ("id"))).getLast?).map (fun kv => kv.2)
  | _ => none

/-- Move trailing decimal zeros of the mantissa into the exponent. -/
def normTzF : Nat → Nat → Int → Nat × Int
  | 0, nd, ex => (nd, ex)
  | fuel + 1, nd, ex =>
    if nd % 10 = 0 ∧ nd ≠ 0 then normTzF fuel (nd / 10) (ex + 1) else (nd, ex)

/-- Python str() of a float given as mantissa times ten to the exponent:
a fixed-point decimal with at least one fractional digit (the scientific
notation Python switches to for extreme magnitudes is not modelled). -/
def floatStr (m ex : Int) : String :=
  if m = 0 then "0.0"
  else
    let sgn := if m < 0 then "-" else ""
    let nt := normTzF m.natAbs m.natAbs ex
    let nd := nt.1
    let e2 := nt.2
    if 0 ≤ e2 then sgn ++ toString (nd * 10 ^ e2.toNat) ++ ".0"
    else
      let ds := (toString nd).data
      let k := e2.natAbs
      if k < ds.length then
        sgn ++ String.mk (ds.take (ds.length - k)) ++ "." ++ String.mk (ds.drop (ds.length - k))
      else sgn ++ "0." ++ String.mk (List.replicate (k - ds.length) '0') ++ String.mk ds

/-- Escapes of one code point inside a Python string repr quoted by the
code point q: backslash and quote escapes, the newline, return and tab
mnemonics, and hexadecimal escapes for the remaining ASCII control range
(the Unicode-database-driven escapes Python applies to non-printable
code points above 0x7f are not modelled). -/
def escapePyCp (q : Nat) (c : Nat) : List Char :=
  if c = 92 then ['\\', '\\']
  else if c = q then ['\\', Char.ofNat q]
  else if c = 10 then ['\\', 'n']
  else if c = 13 then ['\\', 'r']
  else if c = 9 then ['\\', 't']
  else if c < 32 ∨ c = 127 then ['\\', 'x', hexDigit (c / 16), hexDigit (c % 16)]
  else [Char.ofNat c]

/-- Python repr of a str: single-quoted unless the string contains a
single quote (39) and no double quote (34). -/
def pyStrRepr (s : PyStr) : String :=
  let q := if s.contains 39 && !(s.contains 34) then 34 else 39
  String.mk (Char.ofNat q :: s.flatMap (escapePyCp q) ++ [Char.ofNat q])

/-- Comma-space joined concatenation. -/
def joinComma : List String → String
  | [] => ""
  | [s] => s
  | s :: rest => s ++ ", " ++ joinComma rest

mutual

/-- Python repr of a JSON-decoded value. -/
def pyRepr : JVal → String
  | JVal.null => "None"
  | JVal.bool true => "True"
  | JVal.bool false => "False"
  | JVal.int n => toString n
  | JVal.float m ex => floatStr m ex
  | JVal.nonfinite s => s
  | JVal.str s => pyStrRepr s
  | JVal.arr xs => "[" ++ joinComma (pyReprList xs) ++ "]"
  | JVal.obj kvs => "\x7b" ++ joinComma (pyReprMems kvs) ++ "\x7d"

/-- Reprs of the elements of a JSON array. -/
def pyReprList : List JVal → List String
  | [] => []
  | x :: xs => pyRepr x :: pyReprList xs

/-- Reprs of the members of a JSON object. -/
def pyReprMems : List (PyStr × JVal) → List String
  | [] => []
  | kv :: kvs => (pyStrRepr kv.1 ++ ": " ++ pyRepr kv.2) :: pyReprMems kvs

end

/-- Lean rendering of a Python string: each code point becomes the
character of that value; a code point outside the scalar range (a lone
surrogate let through by surrogatepass) has no Lean character and maps to
the null character. In CPython such a user id makes the UTF-8 encoding
inside zs raise, so no signature result is produced for those tokens; the
theorems below never reach them. -/
def stringOfPy (s : PyStr) : String := String.mk (s.map Char.ofNat)

/-- Python str() of a JSON-decoded value, as an f-string interpolates it:
a str is taken verbatim, everything else through repr. -/
def pyStr : JVal → String
  | JVal.str s => stringOfPy s
  | v => pyRepr v

/-- The user id generate_zs_signature derives from the token: the string
form of payload["id"] when the whole extraction succeeds, none otherwise. -/
def extractedUserId (token : String) : Option String :=
  ((decode_jwt_payload token).bind getId).map pyStr

/-- generate_zs_signature (signature.py lines 63-88): extract the user id,
falling back to "guest-user" on any failure, build the descriptor f-string
and delegate to zs. -/
def generate_zs_signature (token request_id : String) (timestamp : Int) (user_content : String) : SigResult :=
  let user_id := (extractedUserId token).getD ("guest-user")
  let e := "requestId," ++ request_id ++ ",timestamp," ++ toString timestamp ++ ",user_id," ++ user_id
  zs e user_content timestamp

/-- Diagnostic message passed to debug_log on the fallback path (the
appended Python exception text is elided). -/
def debugMsg : String := "解码JWT token失败"

/-- generate_zs_signature with the debug_log collaborator made explicit:
the except block runs debug_log before substituting the fallback id, and
since nothing in generate_zs_signature guards that call, an exception the
sink raises inside the handler propagates to the caller; the sink's
Except result models raising. -/
def generate_zs_signatureE {ε : Type} (sink : String → Except ε Unit)
    (token request_id : String) (timestamp : Int) (user_content : String) : Except ε SigResult :=
  match extractedUserId token with
  | some uid =>
    Except.ok (zs ("requestId," ++ request_id ++ ",timestamp," ++ toString timestamp ++ ",user_id," ++ uid)
      user_content timestamp)
  | none =>
    (sink debugMsg).bind (fun _ =>
      Except.ok (zs ("requestId," ++ request_id ++ ",timestamp," ++ toString timestamp ++ ",user_id," ++ "guest-user")
        user_content timestamp))

/-! ### Helper lemmas -/

theorem hexDigit_mem (n : Nat) : hexDigitChars.contains (hexDigit n) = true := by
  by_cases h : n < 16
  · interval_cases n <;> decide
  · unfold hexDigit
    rw [List.getD_eq_default]
    · decide
    · have h16 : hexDigitChars.length = 16 := rfl
      omega

theorem hexChars_length (bs : Bytes) : (hexChars bs).length = 2 * bs.length := by
  induction bs with
  | nil => rfl
  | cons b bs ih =>
    show ([hexDigit (b / 16), hexDigit (b % 16)] ++ hexChars bs).length = 2 * (b :: bs).length
    simp only [List.length_append, List.length_cons, List.length_nil, ih]
    omega

theorem hexChars_hex (bs : Bytes) (c : Char) (hc : c ∈ hexChars bs) :
    hexDigitChars.contains c = true := by
  rcases List.mem_flatMap.mp hc with ⟨b, _, hb⟩
  simp only [List.mem_cons, List.not_mem_nil, or_false] at hb
  rcases hb with h | h
  · rw [h]
    exact hexDigit_mem _
  · rw [h]
    exact hexDigit_mem _

theorem stateBytes_length (s : Hash8) : (stateBytes s).length = 32 := by
  simp [stateBytes, w2b]

theorem sha256_length (m : Bytes) : (sha256 m).length = 32 := stateBytes_length _

theorem hmacSha256_length (key msg : Bytes) : (hmacSha256 key msg).length = 32 :=
  sha256_length _

theorem hmacHex_length (key msg : Bytes) : (hmacHex key msg).length = 64 := by
  show (hexChars (hmacSha256 key msg)).length = 64
  rw [hexChars_length, hmacSha256_length]

theorem hmacHex_hex (key msg : Bytes) :
    ((hmacHex key msg).data.all (fun c => hexDigitChars.contains c)) = true := by
  apply List.all_eq_true.mpr
  intro c hc
  exact hexChars_hex _ c hc

theorem zs_shape (e t : String) (ts : Int) :
    (zs e t ts).signature.length = 64 ∧
      ((zs e t ts).signature.data.all (fun c => hexDigitChars.contains c)) = true ∧
      (zs e t ts).timestamp = ts :=
  ⟨hmacHex_length _ _, hmacHex_hex _ _, rfl⟩

/-! ### Claim theorems -/

/-- Claim C1: for every descriptor e, message t and timestamp, the core
signer's signature is the lowercase hex digest of HMAC-SHA256 whose key is
the UTF-8 bytes of o and whose message is the UTF-8 bytes of
e ++ "|" ++ t ++ "|" ++ str(timestamp), where o is the lowercase hex
digest of HMAC-SHA256 keyed by the UTF-8 bytes of "junjie" over the
decimal string of timestamp // (5 * 60 * 1000). -/
theorem c1_zs_signature (e t : String) (timestamp : Int) :
    (zs e t timestamp).signature =
      hexdigest (hmacSha256
        (utf8 (hexdigest (hmacSha256 (utf8 ("junjie"))
          (utf8 (toString (timestamp.fdiv (5 * 60 * 1000)))))))
        (utf8 (e ++ "|" ++ t ++ "|" ++ toString timestamp))) := rfl

/-- Claim C2: whenever extraction of the user id from the token fails,
generate_zs_signature substitutes the literal "guest-user" in the
descriptor and still returns the core signer's result, so no extraction
exception reaches the caller. -/
theorem c2_guest_user_fallback (token request_id user_content : String) (timestamp : Int)
    (h : extractedUserId token = none) :
    generate_zs_signature token request_id timestamp user_content =
      zs ("requestId," ++ request_id ++ ",timestamp," ++ toString timestamp ++ ",user_id," ++ "guest-user")
        user_content timestamp := by
  simp only [generate_zs_signature, h, Option.getD_none]

theorem c2_guest_user_fallback_witness :
    extractedUserId ("notoken") = none ∧
      generate_zs_signature ("notoken") ("r1") 1700000000000 ("hello") =
        zs ("requestId," ++ "r1" ++ ",timestamp," ++ toString (1700000000000 : Int) ++ ",user_id," ++ "guest-user")
          ("hello") 1700000000000 :=
  ⟨rfl, c2_guest_user_fallback _ _ _ _ rfl⟩

/-- Claim C3: the signature in the result of zs, and hence that of
generate_zs_signature, is a 64-character string of lowercase hexadecimal
digits, and the timestamp in the result is the input integer unchanged. -/
theorem c3_result_shape (e t token request_id user_content : String) (timestamp : Int) :
    ((zs e t timestamp).signature.length = 64 ∧
      ((zs e t timestamp).signature.data.all (fun c => hexDigitChars.contains c)) = true ∧
      (zs e t timestamp).timestamp = timestamp) ∧
    ((generate_zs_signature token request_id timestamp user_content).signature.length = 64 ∧
      ((generate_zs_signature token request_id timestamp user_content).signature.data.all
        (fun c => hexDigitChars.contains c)) = true ∧
      (generate_zs_signature token request_id timestamp user_content).timestamp = timestamp) :=
  ⟨zs_shape e t timestamp, zs_shape _ user_content timestamp⟩

/-- Claim C4: generate_zs_signature builds the descriptor as exactly
"requestId," ++ request_id ++ ",timestamp," ++ str(timestamp) ++
",user_id," ++ user_id with the derived user id, and returns exactly the
core signer applied to (descriptor, user content, timestamp). -/
theorem c4_descriptor_delegation (token request_id user_content : String) (timestamp : Int) :
    generate_zs_signature token request_id timestamp user_content =
      zs ("requestId," ++ request_id ++ ",timestamp," ++ toString timestamp ++ ",user_id," ++
          ((extractedUserId token).getD ("guest-user")))
        user_content timestamp := rfl

set_option maxRecDepth 100000 in
/-- Claim C5: two timestamps with the same floor division by 300000 yield
an identical derived key o; for timestamps in different buckets o differs,
exhibited on the concrete distinct buckets of 0 and 300000. -/
theorem c5_window_quantization (t1 t2 : Int) (h : t1.fdiv 300000 = t2.fdiv 300000) :
    derivedKeyO t1 = derivedKeyO t2 ∧ derivedKeyO 0 ≠ derivedKeyO 300000 := by
  constructor
  · unfold derivedKeyO
    have h5 : (5 * 60 * 1000 : Int) = 300000 := by norm_num
    rw [h5, h]
  · decide

theorem c5_window_quantization_witness :
    ((0 : Int).fdiv 300000 = (299999 : Int).fdiv 300000) ∧
      (derivedKeyO 0 = derivedKeyO 299999 ∧ derivedKeyO 0 ≠ derivedKeyO 300000) :=
  ⟨by decide, c5_window_quantization 0 299999 (by decide)⟩

/-- Claim C6: the padding the extractor appends before base64url-decoding
equals (4 - length mod 4) mod 4 equal-signs for every payload, and the
code's computation (4 - L mod 4, appended only when it differs from 4)
equals that formula for every length L. -/
theorem c6_padding_formula (s : String) (L : Nat) :
    padPayload s = s ++ String.mk (List.replicate ((4 - s.length % 4) % 4) '=') ∧
      (if 4 - L % 4 ≠ 4 then 4 - L % 4 else 0) = (4 - L % 4) % 4 := by
  constructor
  · have h4 : s.length % 4 < 4 := Nat.mod_lt _ (by norm_num)
    unfold padPayload
    apply String.ext
    by_cases h : 4 - s.length % 4 = 4
    · have h0 : s.length % 4 = 0 := by omega
      simp [h, h0]
    · have hm : (4 - s.length % 4) % 4 = 4 - s.length % 4 := Nat.mod_eq_of_lt (by omega)
      simp [h, hm]
  · split <;> omega

/-- Claim C7: for every token whose payload decodes to a JSON object whose
id key holds the string "u123", the descriptor generate_zs_signature
passes to the signer carries exactly the user id "u123". -/
theorem c7_valid_token_user_id (token request_id user_content : String) (timestamp : Int)
    (h : (decode_jwt_payload token).bind getId = some (JVal.str (pyOfString ("u123")))) :
    generate_zs_signature token request_id timestamp user_content =
      zs ("requestId," ++ request_id ++ ",timestamp," ++ toString timestamp ++ ",user_id," ++ "u123")
        user_content timestamp := by
  have hu : extractedUserId token = some ("u123") := by
    unfold extractedUserId
    rw [h]
    rfl
  simp only [generate_zs_signature, hu, Option.getD_some]

theorem c7_valid_token_user_id_witness :
    ((decode_jwt_payload ("h.eyJpZCI6InUxMjMifQ.s")).bind getId = some (JVal.str (pyOfString ("u123")))) ∧
      generate_zs_signature ("h.eyJpZCI6InUxMjMifQ.s") ("r1") 5 ("msg") =
        zs ("requestId," ++ "r1" ++ ",timestamp," ++ toString (5 : Int) ++ ",user_id," ++ "u123")
          ("msg") 5 :=
  ⟨rfl, c7_valid_token_user_id _ _ _ _ rfl⟩

/-- Claim C8: generate_zs_signature is deterministic; componentwise equal
inputs give an identical signature string, the result depending on
nothing besides the four inputs. -/
theorem c8_deterministic (token1 token2 request_id1 request_id2 user_content1 user_content2 : String)
    (ts1 ts2 : Int) (h1 : token1 = token2) (h2 : request_id1 = request_id2) (h3 : ts1 = ts2)
    (h4 : user_content1 = user_content2) :
    (generate_zs_signature token1 request_id1 ts1 user_content1).signature =
      (generate_zs_signature token2 request_id2 ts2 user_content2).signature := by
  rw [h1, h2, h3, h4]

theorem c8_deterministic_witness :
    (generate_zs_signature ("a.b.c") ("r") 7 ("m")).signature =
      (generate_zs_signature ("a.b.c") ("r") 7 ("m")).signature :=
  c8_deterministic _ _ _ _ _ _ _ _ rfl rfl rfl rfl

/-- Claim C9 counterexample: with a log sink that raises, a token whose
extraction fails makes the entry point propagate the sink's exception
instead of returning a signature result, refuting the claim that a sink
failure cannot escape generate_zs_signature. -/
theorem c9_sink_failure_counterexample :
    extractedUserId ("x") = none ∧
      generate_zs_signatureE (fun _ => Except.error ()) ("x") ("r") 0 ("m") = Except.error () :=
  ⟨rfl, rfl⟩

/-- Claim C9 as amended: on the fallback path the sink's outcome decides
the entry point's outcome — a raising sink propagates its exception to
the caller, and a normally returning sink yields the guest-user signature
result. -/
theorem c9_sink_propagation {ε : Type} (sink : String → Except ε Unit)
    (token request_id user_content : String) (timestamp : Int)
    (h : extractedUserId token = none) :
    (∀ err : ε, sink debugMsg = Except.error err →
        generate_zs_signatureE sink token request_id timestamp user_content = Except.error err) ∧
      (sink debugMsg = Except.ok () →
        generate_zs_signatureE sink token request_id timestamp user_content =
          Except.ok (zs ("requestId," ++ request_id ++ ",timestamp," ++ toString timestamp ++ ",user_id," ++ "guest-user")
            user_content timestamp)) := by
  constructor
  · intro err herr
    unfold generate_zs_signatureE
    rw [h, herr]
    rfl
  · intro hok
    unfold generate_zs_signatureE
    rw [h, hok]
    rfl

theorem c9_sink_propagation_witness :
    extractedUserId ("x.y") = none ∧
      ((fun _ : String => (Except.ok () : Except Unit Unit)) debugMsg = Except.ok () →
        generate_zs_signatureE (fun _ : String => (Except.ok () : Except Unit Unit)) ("x.y") ("r") 3 ("m") =
          Except.ok (zs ("requestId," ++ "r" ++ ",timestamp," ++ toString (3 : Int) ++ ",user_id," ++ "guest-user")
            ("m") 3)) :=
  ⟨rfl, (c9_sink_propagation (fun _ : String => (Except.ok () : Except Unit Unit)) ("x.y") ("r") ("m") 3 rfl).2⟩

end ZsSig
